import Mathlib

/-!
Verification of the client-side streaming-inference protocol layer of
RxInferKServe (the gRPC streaming client in
`examples/infinite_stream_demo/client/streaming_client.py`).

The development shallowly embeds the class `RxInferStreamingClient`:

* parameter encoding (the `isinstance` dispatch chain of
  `streaming_inference`, lines 183-192),
* tensor creation (`create_tensor`, lines 142-162),
* request building (lines 172-198, including the `model_state` merge),
* response parsing and state commit (lines 200-228),
* the health checks (`check_server_live`, `check_model_ready`),
* the per-model state dictionary `self.model_states` shared between the
  demo threads, decomposed at store-access granularity so that thread
  interleavings of the get -> RPC -> put cycle can be analysed.

Python dictionaries are modelled as association lists with
insert-or-replace-in-place update (exactly a CPython dict: assigning to an
existing key keeps its position, a new key is appended).  The standard
library functions `json.loads` / `json.dumps` used on the `model_state`
blob are modelled on the JSON fragment without floating-point numbers
(null, booleans, integer numbers, strings with the simple escapes, arrays,
objects); every theorem that depends on `json.loads` succeeding carries
that success as a hypothesis, so the theorems speak exactly about inputs
inside the modelled fragment.
-/

/-! ## Python dictionaries as association lists -/

/-- Lookup in a Python dict modelled as an association list. -/
def mapGet? {α : Type} : List (String × α) → String → Option α
  | [], _ => none
  | (k2, v) :: rest, k => if k2 = k then some v else mapGet? rest k

/-- Assignment `d[k] = v` on a Python dict: replace in place if the key is
present (CPython keeps the key's position), append otherwise. -/
def mapSet {α : Type} : List (String × α) → String → α → List (String × α)
  | [], k, v => [(k, v)]
  | (k2, v2) :: rest, k, v =>
    if k2 = k then (k, v) :: rest else (k2, v2) :: mapSet rest k v

theorem mapGet?_mapSet_self {α : Type} (m : List (String × α)) (k : String) (v : α) :
    mapGet? (mapSet m k v) k = some v := by
  induction m with
  | nil => simp [mapSet, mapGet?]
  | cons hd tl ih =>
    obtain ⟨k2, v2⟩ := hd
    by_cases h : k2 = k <;> simp [mapSet, mapGet?, h, ih]

theorem mapGet?_mapSet_ne {α : Type} (m : List (String × α)) (k k' : String) (v : α)
    (h : k' ≠ k) : mapGet? (mapSet m k v) k' = mapGet? m k' := by
  induction m with
  | nil => simp [mapSet, mapGet?, Ne.symm h]
  | cons hd tl ih =>
    obtain ⟨k2, v2⟩ := hd
    by_cases h2 : k2 = k
    · subst h2
      simp [mapSet, mapGet?, Ne.symm h]
    · simp [mapSet, mapGet?, h2, ih]

/-! ## JSON values (`json.loads` / `json.dumps` model)

A mutual inductive (rather than nesting `List`) keeps every function
structurally recursive and hence kernel-reducible, which the concrete
counterexamples rely on. -/

mutual
inductive Json where
  | null : Json
  | bool : Bool → Json
  | num : Int → Json
  | str : String → Json
  | arr : JsonList → Json
  | obj : JsonMembers → Json

inductive JsonList where
  | nil : JsonList
  | cons : Json → JsonList → JsonList

inductive JsonMembers where
  | nil : JsonMembers
  | cons : String → Json → JsonMembers → JsonMembers
end

/-- Assignment into a parsed JSON object: `json.loads` builds a Python dict
by successive `d[key] = value`, so a duplicated key keeps its first
position with the last value. -/
def membersSet : JsonMembers → String → Json → JsonMembers
  | .nil, k, v => .cons k v .nil
  | .cons k2 v2 ms, k, v =>
    if k2 = k then .cons k v ms else .cons k2 v2 (membersSet ms k v)

/-- Hexadecimal digit, lower case, as produced by Python's `ensure_ascii`
escaping. -/
def hexDigit (n : Nat) : Char :=
  if n < 10 then Char.ofNat (48 + n) else Char.ofNat (87 + n)

/-- Four-digit hexadecimal rendering of `n < 0x10000`. -/
def hex4 (n : Nat) : String :=
  String.singleton (hexDigit (n / 4096 % 16)) ++
  String.singleton (hexDigit (n / 256 % 16)) ++
  String.singleton (hexDigit (n / 16 % 16)) ++
  String.singleton (hexDigit (n % 16))

/-- Escaping of one character of a string value by `json.dumps`, with the
default `ensure_ascii=True`: printable ASCII passes through, the short
escapes are used where they exist, everything else becomes `\uXXXX`
(astral characters become a surrogate pair). -/
def escapeChar (c : Char) : String :=
  if c = '"' then "\\\""
  else if c = '\\' then "\\\\"
  else if c = '\n' then "\\n"
  else if c = '\t' then "\\t"
  else if c = '\r' then "\\r"
  else if c = '\x08' then "\\b"
  else if c = '\x0c' then "\\f"
  else if c.toNat < 32 || c.toNat > 126 then
    if c.toNat < 65536 then "\\u" ++ hex4 c.toNat
    else
      "\\u" ++ hex4 (55296 + (c.toNat - 65536) / 1024) ++
      "\\u" ++ hex4 (56320 + (c.toNat - 65536) % 1024)
  else String.singleton c

def escapeString (cs : List Char) : String :=
  match cs with
  | [] => ""
  | c :: rest => escapeChar c ++ escapeString rest

/-- Rendering of a string scalar by `json.dumps`. -/
def dumpsString (s : String) : String :=
  "\"" ++ escapeString s.toList ++ "\""

mutual
/-- Model of `json.dumps` with the default options (separators `", "` and `": "`,
`ensure_ascii=True`, no `sort_keys`), as called at line 197 of
`streaming_client.py`. -/
def dumps : Json → String
  | .null => "null"
  | .bool true => "true"
  | .bool false => "false"
  | .num n => toString n
  | .str s => dumpsString s
  | .arr es => "[" ++ dumpsElems es ++ "]"
  | .obj ms => "\x7b" ++ dumpsMembers ms ++ "\x7d"

def dumpsElems : JsonList → String
  | .nil => ""
  | .cons e .nil => dumps e
  | .cons e es => dumps e ++ ", " ++ dumpsElems es

def dumpsMembers : JsonMembers → String
  | .nil => ""
  | .cons k v .nil => dumpsString k ++ ": " ++ dumps v
  | .cons k v ms => dumpsString k ++ ": " ++ dumps v ++ ", " ++ dumpsMembers ms
end

/-! ### `json.loads`: recursive-descent parser over the modelled fragment -/

/-- JSON whitespace skipping (space, tab, newline, carriage return). -/
def skipWs : List Char → List Char
  | [] => []
  | c :: cs =>
    if c = ' ' || c = '\t' || c = '\n' || c = '\r' then skipWs cs else c :: cs

/-- Split a leading run of decimal digits. -/
def takeDigits : List Char → List Char × List Char
  | [] => ([], [])
  | c :: cs =>
    if c.isDigit then
      let (ds, rest) := takeDigits cs
      (c :: ds, rest)
    else ([], c :: cs)

def digitsToNat (ds : List Char) : Nat :=
  ds.foldl (fun a c => a * 10 + (c.toNat - 48)) 0

/-- Parse a JSON number.  The grammar's integer part is `-? (0 | [1-9][0-9]*)`;
a following fraction or exponent means a floating-point number, which lies
outside the modelled fragment, so the parse fails there. -/
def parseNumber (cs : List Char) : Option (Json × List Char) :=
  let (neg, cs1) := match cs with
    | '-' :: r => (true, r)
    | _ => (false, cs)
  match takeDigits cs1 with
  | ([], _) => none
  | (d :: ds, rest) =>
    if d = '0' && ds ≠ [] then none
    else
      let stop : Bool := match rest with
        | r :: _ => r = '.' || r = 'e' || r = 'E'
        | [] => false
      if stop then none
      else
        let n : Int := Int.ofNat (digitsToNat (d :: ds))
        some (.num (if neg then -n else n), rest)

/-- Parse the body of a JSON string after the opening quote.  The simple
escapes are supported; `\uXXXX` escapes lie outside the modelled fragment;
raw control characters are rejected as in Python's strict mode. -/
def parseStringBody : List Char → Option (String × List Char)
  | [] => none
  | c :: cs =>
    if c = '"' then some ("", cs)
    else if c = '\\' then
      match cs with
      | [] => none
      | e :: cs2 =>
        let esc : Option Char :=
          if e = '"' then some '"'
          else if e = '\\' then some '\\'
          else if e = '/' then some '/'
          else if e = 'n' then some '\n'
          else if e = 't' then some '\t'
          else if e = 'r' then some '\r'
          else if e = 'b' then some '\x08'
          else if e = 'f' then some '\x0c'
          else none
        match esc with
        | none => none
        | some ch =>
          match parseStringBody cs2 with
          | some (s, rest) => some (String.singleton ch ++ s, rest)
          | none => none
    else if c.toNat < 32 then none
    else
      match parseStringBody cs with
      | some (s, rest) => some (String.singleton c ++ s, rest)
      | none => none

mutual
/-- Parse one JSON value.  `fuel` bounds the recursion depth; `json_loads`
supplies `length + 1`, which dominates the nesting depth because every
recursive call first consumes at least one character. -/
def parseValue : Nat → List Char → Option (Json × List Char)
  | 0, _ => none
  | fuel + 1, cs =>
    match skipWs cs with
    | [] => none
    | c :: rest =>
      if c = 'n' then
        match rest with
        | 'u' :: 'l' :: 'l' :: r => some (.null, r)
        | _ => none
      else if c = 't' then
        match rest with
        | 'r' :: 'u' :: 'e' :: r => some (.bool true, r)
        | _ => none
      else if c = 'f' then
        match rest with
        | 'a' :: 'l' :: 's' :: 'e' :: r => some (.bool false, r)
        | _ => none
      else if c = '"' then
        match parseStringBody rest with
        | some (s, r) => some (.str s, r)
        | none => none
      else if c = '[' then
        match skipWs rest with
        | ']' :: r => some (.arr .nil, r)
        | cs2 =>
          match parseElems fuel cs2 with
          | some (es, r) => some (.arr es, r)
          | none => none
      else if c = '\x7b' then
        match skipWs rest with
        | c2 :: r =>
          if c2 = '\x7d' then some (.obj .nil, r)
          else
            match parseMembers fuel (c2 :: r) .nil with
            | some (ms, r2) => some (.obj ms, r2)
            | none => none
        | [] => none
      else if c = '-' || c.isDigit then parseNumber (c :: rest)
      else none

/-- Parse the elements of a non-empty JSON array (after the opening
bracket). -/
def parseElems : Nat → List Char → Option (JsonList × List Char)
  | 0, _ => none
  | fuel + 1, cs =>
    match parseValue fuel cs with
    | none => none
    | some (v, r) =>
      match skipWs r with
      | ',' :: r2 =>
        match parseElems fuel r2 with
        | some (vs, r3) => some (.cons v vs, r3)
        | none => none
      | ']' :: r2 => some (.cons v .nil, r2)
      | _ => none

/-- Parse the members of a non-empty JSON object (after the opening brace),
accumulating into a Python-dict model via `membersSet`. -/
def parseMembers : Nat → List Char → JsonMembers → Option (JsonMembers × List Char)
  | 0, _, _ => none
  | fuel + 1, cs, acc =>
    match skipWs cs with
    | '"' :: r =>
      match parseStringBody r with
      | none => none
      | some (k, r2) =>
        match skipWs r2 with
        | ':' :: r3 =>
          match parseValue fuel r3 with
          | none => none
          | some (v, r4) =>
            match skipWs r4 with
            | ',' :: r5 => parseMembers fuel r5 (membersSet acc k v)
            | c :: r5 =>
              if c = '\x7d' then some (membersSet acc k v, r5) else none
            | [] => none
        | _ => none
    | _ => none
end

/-! ## Python-level error values

The only exceptions the client code can raise or see on the paths the
claims cover: `grpc.RpcError` (modelled separately as a transport outcome),
`ValueError` (raised by `create_tensor` and by `numpy.reshape`), and
`json.JSONDecodeError` from `json.loads`. -/

inductive PyError where
  | valueError : String → PyError
  | jsonDecodeError : String → PyError
deriving DecidableEq

/-- Model of `json.loads` as used at lines 220-222: succeeds on the modelled JSON
fragment, raises `json.JSONDecodeError` otherwise. -/
def json_loads (s : String) : Except PyError Json :=
  let cs := s.toList
  match parseValue (cs.length + 1) cs with
  | some (v, rest) =>
    match skipWs rest with
    | [] => .ok v
    | _ :: _ => .error (.jsonDecodeError s)
  | none => .error (.jsonDecodeError s)

example : json_loads "\x7b\"a\":1\x7d" = .ok (.obj (.cons "a" (.num 1) .nil)) := rfl
example : dumps (.obj (.cons "a" (.num 1) .nil)) = "\x7b\"a\": 1\x7d" := rfl
example : json_loads "[1,2]" = .ok (.arr (.cons (.num 1) (.cons (.num 2) .nil))) := rfl
example : dumps (.arr (.cons (.num 1) (.cons (.num 2) .nil))) = "[1, 2]" := rfl
example : json_loads "" = .error (.jsonDecodeError "") := rfl
example : dumps (.str "m_1") = "\"m_1\"" := rfl

/-! ## Python parameter values and their `isinstance` tests -/

/-- The dynamically typed values a caller can put in the `parameters` dict
of `streaming_inference`.  `pyFloat` stands for the value kinds the
encoding chain does not test for (the demo itself passes the float
`1.0` under key `"Δt"`); its payload is modelled as a rational since no
claim depends on float arithmetic. -/
inductive PyVal where
  | pyBool : Bool → PyVal
  | pyInt : Int → PyVal
  | pyStr : String → PyVal
  | pyFloat : Rat → PyVal
deriving DecidableEq

/-- Test `isinstance(value, bool)`. -/
def PyVal.isinstance_bool : PyVal → Bool
  | .pyBool _ => true
  | _ => false

/-- Test `isinstance(value, int)`.  In Python `bool` is a subclass of `int`,
so a boolean satisfies this test as well. -/
def PyVal.isinstance_int : PyVal → Bool
  | .pyBool _ => true
  | .pyInt _ => true
  | _ => false

/-- Test `isinstance(value, str)`. -/
def PyVal.isinstance_str : PyVal → Bool
  | .pyStr _ => true
  | _ => false

def PyVal.asBool : PyVal → Bool
  | .pyBool b => b
  | _ => false

/-- Coercion applied by the protobuf setter `param.int64_param = value`
(`int(True) = 1`, `int(False) = 0`). -/
def PyVal.asInt : PyVal → Int
  | .pyBool b => if b then 1 else 0
  | .pyInt i => i
  | _ => 0

def PyVal.asStr : PyVal → String
  | .pyStr s => s
  | _ => ""

/-! ## Wire-level messages (protobuf model) -/

/-- Message `inference_pb2.InferParameter`: a protobuf oneof over
`bool_param` / `int64_param` / `string_param`.  A freshly constructed
parameter has no variant set (`unset`), which is what the encoding chain
leaves behind for a value kind it does not handle. -/
inductive InferParameter where
  | unset : InferParameter
  | bool_param : Bool → InferParameter
  | int64_param : Int → InferParameter
  | string_param : String → InferParameter
deriving DecidableEq

/-- Protobuf read access `p.string_param`: yields the field's default
value `""` when the oneof holds a different variant (or none). -/
def InferParameter.getStringParam : InferParameter → String
  | .string_param s => s
  | _ => ""

/-- Tensor contents: the datatype-specific repeated fields actually read
or written by the client (`fp64_contents`, `fp32_contents`).  Scalar
values are modelled as rationals; no claim depends on float rounding. -/
structure TensorContents where
  fp64_contents : List Rat
  fp32_contents : List Rat
deriving DecidableEq

/-- One wire tensor.  The same shape serves `InferInputTensor` and the
response's output tensors, whose fields coincide in everything the client
touches (`name`, `datatype`, `shape`, `contents`). -/
structure InferTensor where
  name : String
  datatype : String
  shape : List Nat
  contents : TensorContents
deriving DecidableEq

/-- A numpy array as the client uses it: declared shape plus the
row-major flat data. -/
structure NpArray where
  shape : List Nat
  data : List Rat
deriving DecidableEq

/-- Model of `numpy.ndarray.reshape(shape)` on flat data: succeeds exactly when the
shape's product equals the element count, otherwise raises `ValueError`. -/
def np_reshape (xs : List Rat) (shape : List Nat) : Except PyError NpArray :=
  if shape.prod = xs.length then .ok ⟨shape, xs⟩
  else .error (.valueError ("cannot reshape array of size " ++ toString xs.length))

/-- Message `inference_pb2.ModelInferRequest` as the client fills it in:
`model_name`, `id`, ordered `inputs`, and the `parameters` map. -/
structure ModelInferRequest where
  model_name : String
  id : String
  inputs : List InferTensor
  parameters : List (String × InferParameter)
deriving DecidableEq

/-- Message `inference_pb2.ModelInferResponse` as the client reads it: the ordered
`outputs` and the `parameters` map. -/
structure ModelInferResponse where
  outputs : List InferTensor
  parameters : List (String × InferParameter)
deriving DecidableEq

/-- A `grpc.RpcError` as observed by the client (`e.code()`, `e.details()`). -/
structure RpcError where
  code : String
  details : String
deriving DecidableEq

/-! ## `RxInferStreamingClient` -/

/-- The client's only piece of mutable state: `self.model_states`, the
per-model dictionary initialised to `{}` in `__init__` and shared by all
calls (and, in the demo, by all threads). -/
structure RxInferStreamingClient where
  model_states : List (String × Json)

/-- Constructor `__init__` (line 122): `self.model_states` starts empty. -/
def RxInferStreamingClient.init : RxInferStreamingClient := ⟨[]⟩

structure ServerLiveResponse where
  live : Bool
deriving DecidableEq

structure ModelReadyResponse where
  ready : Bool
deriving DecidableEq

/-- Method `check_server_live` (lines 124-131): returns `response.live`, or
`False` on any `grpc.RpcError`.  The transport call's outcome is passed in
as an oracle. -/
def check_server_live (outcome : Except RpcError ServerLiveResponse) : Bool :=
  match outcome with
  | .ok response => response.live
  | .error _ => false

/-- Method `check_model_ready` (lines 133-140): returns `response.ready`, or
`False` on any `grpc.RpcError`. -/
def check_model_ready (model_name : String)
    (outcome : Except RpcError ModelReadyResponse) : Bool :=
  match model_name, outcome with
  | _, .ok response => response.ready
  | _, .error _ => false

/-- Model of `numpy.ndarray.astype(np.float32)` element conversion.  Modelled as the
identity on the rational payload: the claims never depend on scalar
values, only on which datatypes are accepted. -/
def np_float32 (x : Rat) : Rat := x

/-- Method `create_tensor` (lines 142-162): flattens the data, tags it with the
declared datatype and shape, fills the matching contents field, and raises
`ValueError` for every datatype other than `"FP64"` and `"FP32"`. -/
def create_tensor (name : String) (data : NpArray) (datatype : String) :
    Except PyError InferTensor :=
  if datatype = "FP64" then
    .ok { name := name, datatype := datatype, shape := data.shape,
          contents := { fp64_contents := data.data, fp32_contents := [] } }
  else if datatype = "FP32" then
    .ok { name := name, datatype := datatype, shape := data.shape,
          contents := { fp64_contents := [], fp32_contents := data.data.map np_float32 } }
  else .error (.valueError ("Unsupported datatype: " ++ datatype))

/-- The tensor `create_tensor` produces for the default datatype `"FP64"`
(the only way `streaming_inference` calls it, line 179). -/
def tensorFP64 (name : String) (data : NpArray) : InferTensor :=
  { name := name, datatype := "FP64", shape := data.shape,
    contents := { fp64_contents := data.data, fp32_contents := [] } }

theorem create_tensor_fp64 (name : String) (data : NpArray) :
    create_tensor name data "FP64" = .ok (tensorFP64 name data) := rfl

/-- The `isinstance` dispatch chain of lines 185-192: bool, then int, then
str; a value matching none of the tests leaves the freshly constructed
`InferParameter` untouched (no `else` branch exists). -/
def encodeParam (value : PyVal) : InferParameter :=
  if value.isinstance_bool then .bool_param value.asBool
  else if value.isinstance_int then .int64_param value.asInt
  else if value.isinstance_str then .string_param value.asStr
  else .unset

/-- The loop of lines 184-192: `request.parameters[key].CopyFrom(param)`
for each entry of the caller's dict. -/
def encodeParams (params : List (String × PyVal)) : List (String × InferParameter) :=
  params.foldl (fun acc kv => mapSet acc kv.1 (encodeParam kv.2)) []

/-- Request construction, lines 172-198: the message with `model_name` and
the time-derived `id`, the input tensors (always datatype `"FP64"`), the
encoded caller parameters, and — whenever `model_name in self.model_states`
— the parameter `"model_state"` set to `json.dumps` of the stored value,
overwriting any caller entry of the same key. -/
def build_request (states : List (String × Json)) (model_name : String)
    (now_ms : Int) (data_batch : List (String × NpArray))
    (params : List (String × PyVal)) : ModelInferRequest :=
  let ps := encodeParams params
  let ps := match mapGet? states model_name with
    | some st => mapSet ps "model_state" (.string_param (dumps st))
    | none => ps
  { model_name := model_name
    id := model_name ++ "_" ++ toString now_ms
    inputs := data_batch.map (fun kv => tensorFP64 kv.1 kv.2)
    parameters := ps }

/-- The output-parsing loop of lines 204-216: FP64 and FP32 outputs are
reshaped to their declared shape and stored under their name (a numpy
`ValueError` from `reshape` propagates, aborting the call); any other
datatype hits `continue` and is silently skipped. -/
def parseOutputs : List InferTensor → List (String × NpArray) →
    Except PyError (List (String × NpArray))
  | [], results => .ok results
  | output :: rest, results =>
    if output.datatype = "FP64" then
      match np_reshape output.contents.fp64_contents output.shape with
      | .ok arr => parseOutputs rest (mapSet results output.name arr)
      | .error e => .error e
    else if output.datatype = "FP32" then
      match np_reshape output.contents.fp32_contents output.shape with
      | .ok arr => parseOutputs rest (mapSet results output.name arr)
      | .error e => .error e
    else parseOutputs rest results

/-- What a call to `streaming_inference` does for its caller: either a
Python `return` with a results dict, or an uncaught exception. -/
inductive InferResult where
  | returned : List (String × NpArray) → InferResult
  | raised : PyError → InferResult
deriving DecidableEq

/-- The response-handling tail of `streaming_inference` (lines 204-224):
parse the outputs, then — if the response carries a `"model_state"`
parameter — commit `json.loads` of its `string_param` into
`self.model_states[model_name]` before returning the results.  A
`ValueError` from reshape or a `JSONDecodeError` propagates without
committing. -/
def infer_handle_response (client : RxInferStreamingClient) (model_name : String)
    (response : ModelInferResponse) : RxInferStreamingClient × InferResult :=
  match parseOutputs response.outputs [] with
  | .error e => (client, .raised e)
  | .ok results =>
    match mapGet? response.parameters "model_state" with
    | some p =>
      match json_loads p.getStringParam with
      | .ok v => (⟨mapSet client.model_states model_name v⟩, .returned results)
      | .error e => (client, .raised e)
    | none => (client, .returned results)

/-- Method `streaming_inference` (lines 164-228) end to end: build the request,
perform the call (its outcome is an oracle argument standing for
`self.stub.ModelInfer(request)`), and either handle the response or — on
`grpc.RpcError` — print and `return {}` without touching the store.  The
built request is returned so theorems can speak about what went on the
wire. -/
def streaming_inference (client : RxInferStreamingClient) (model_name : String)
    (now_ms : Int) (data_batch : List (String × NpArray))
    (params : List (String × PyVal))
    (outcome : Except RpcError ModelInferResponse) :
    RxInferStreamingClient × ModelInferRequest × InferResult :=
  let request := build_request client.model_states model_name now_ms data_batch params
  match outcome with
  | .error _ => (client, request, .returned [])
  | .ok response =>
    let (client2, r) := infer_handle_response client model_name response
    (client2, request, r)

/-! ## Sequential sessions: iterated calls against one model -/

/-- The caller-visible ingredients of one `streaming_inference` call: the
wall-clock milliseconds that enter the request id, the data batch, the
extra parameters, and the transport outcome of `self.stub.ModelInfer`. -/
structure CallSpec where
  now_ms : Int
  data_batch : List (String × NpArray)
  params : List (String × PyVal)
  outcome : Except RpcError ModelInferResponse

/-- Run a sequence of `streaming_inference` calls against one model,
threading the client's `model_states` dictionary through. -/
def runCalls (model_name : String) :
    RxInferStreamingClient → List CallSpec → RxInferStreamingClient
  | client, [] => client
  | client, c :: rest =>
    runCalls model_name
      (streaming_inference client model_name c.now_ms c.data_batch c.params c.outcome).1
      rest

/-- The call received a successful response whose outputs parse and whose
parameters carry the state blob `sv.1`, which `json.loads` parses to
`sv.2`. -/
def CarriesState (c : CallSpec) (sv : String × Json) : Prop :=
  ∃ response results,
    c.outcome = .ok response ∧
    parseOutputs response.outputs [] = .ok results ∧
    mapGet? response.parameters "model_state" = some (.string_param sv.1) ∧
    json_loads sv.1 = .ok sv.2

/-! ## Concurrent sessions: the get -> RPC -> put cycle decomposed

The demo runs one thread per model, all sharing `self.model_states` with
no synchronization.  To analyse interleavings of two sessions on the same
model name, one `streaming_inference` call is split at its store accesses:
the build step (reads `self.model_states`, lines 194-198) and the commit
step (the blocking RPC plus the write at lines 218-222).  Both steps run
exactly the source's code (`build_request`, `infer_handle_response`); the
harness only schedules them and records, for each committed state, the
`model_state` parameter of the request it answered — i.e. the prior state
the commit was derived from. -/

inductive SessionPhase where
  | toBuild : SessionPhase
  | inFlight : ModelInferRequest → SessionPhase
  | done : SessionPhase

/-- Shared world of two concurrent sessions: the one shared client (hence
one shared `model_states` dict), each session's phase, and the audit
history of commits as pairs (prior the request was built from, committed
blob re-serialized). -/
structure RaceWorld where
  client : RxInferStreamingClient
  phaseA : SessionPhase
  phaseB : SessionPhase
  history : List (Option InferParameter × String)

/-- Advance one session by one store-access step.  The build step is
lines 172-198 of `streaming_inference`; the commit step is lines 201-224
(`infer_handle_response`) applied to the mock server's response. -/
def stepSession (server : ModelInferRequest → ModelInferResponse)
    (model_name : String) (now_ms : Int) (client : RxInferStreamingClient)
    (history : List (Option InferParameter × String)) (phase : SessionPhase) :
    RxInferStreamingClient × List (Option InferParameter × String) × SessionPhase :=
  match phase with
  | .toBuild =>
    (client, history, .inFlight (build_request client.model_states model_name now_ms [] []))
  | .inFlight req =>
    let response := server req
    let (client2, _res) := infer_handle_response client model_name response
    let committed : Option Json :=
      match parseOutputs response.outputs [] with
      | .error _ => none
      | .ok _ =>
        match mapGet? response.parameters "model_state" with
        | some p =>
          match json_loads p.getStringParam with
          | .ok v => some v
          | .error _ => none
        | none => none
    let history2 := match committed with
      | some v => history ++ [(mapGet? req.parameters "model_state", dumps v)]
      | none => history
    (client2, history2, .done)
  | .done => (client, history, .done)

/-- Schedule step: `true` advances session A (using `nowA` for its request
id), `false` advances session B. -/
def raceStep (server : ModelInferRequest → ModelInferResponse)
    (model_name : String) (nowA nowB : Int) (w : RaceWorld) (sid : Bool) : RaceWorld :=
  if sid then
    let (c, h, p) := stepSession server model_name nowA w.client w.history w.phaseA
    { client := c, phaseA := p, phaseB := w.phaseB, history := h }
  else
    let (c, h, p) := stepSession server model_name nowB w.client w.history w.phaseB
    { client := c, phaseA := w.phaseA, phaseB := p, history := h }

/-- Run a whole interleaving schedule. -/
def raceRun (server : ModelInferRequest → ModelInferResponse)
    (model_name : String) (nowA nowB : Int) (w : RaceWorld) :
    List Bool → RaceWorld
  | [] => w
  | sid :: rest => raceRun server model_name nowA nowB (raceStep server model_name nowA nowB w sid) rest

/-- Mock stateful server: answers every request with a fresh state blob
derived from the request id (a JSON string), the way the real server
advances its continuation per request. -/
def echoServer (req : ModelInferRequest) : ModelInferResponse :=
  { outputs := [], parameters := [("model_state", .string_param ("\"" ++ req.id ++ "\""))] }

/-- Two sessions on model `"m"`, store initially holding state `0`. -/
def raceInit : RaceWorld :=
  { client := ⟨[("m", Json.num 0)]⟩, phaseA := .toBuild, phaseB := .toBuild, history := [] }

/-! ## Concrete fixtures for counterexamples and witnesses -/

/-- A successful response carrying the state blob `{"a":1}` (compact, no
space after the colon — valid JSON that is not in `json.dumps` canonical
form). -/
def cexResp1 : ModelInferResponse :=
  { outputs := [], parameters := [("model_state", .string_param "\x7b\"a\":1\x7d")] }

def cexCall1 : CallSpec :=
  { now_ms := 0, data_batch := [], params := [], outcome := .ok cexResp1 }

/-- Value of `json.loads` on `{"a":1}`. -/
def cexV1 : Json := .obj (.cons "a" (.num 1) .nil)

/-- A successful response carrying the state blob `[1,2]` (compact array
syntax, again not `json.dumps` canonical). -/
def cexResp2 : ModelInferResponse :=
  { outputs := [], parameters := [("model_state", .string_param "[1,2]")] }

/-- Value of `json.loads` on `[1,2]`. -/
def cexV2 : Json := .arr (.cons (.num 1) (.cons (.num 2) .nil))

/-- An output tensor declaring shape `[2,3]` but supplying 5 values. -/
def cexBadTensor : InferTensor :=
  { name := "x", datatype := "FP64", shape := [2, 3],
    contents := { fp64_contents := [1, 2, 3, 4, 5], fp32_contents := [] } }

def cexBadResp : ModelInferResponse :=
  { outputs := [cexBadTensor], parameters := [] }

/-! ## Supporting lemmas -/

theorem mapGet?_foldl_encodeParam_eq_none (k : String) :
    ∀ (ps : List (String × PyVal)) (acc : List (String × InferParameter)),
      k ∉ ps.map Prod.fst → mapGet? acc k = none →
      mapGet? (ps.foldl (fun acc kv => mapSet acc kv.1 (encodeParam kv.2)) acc) k = none := by
  intro ps
  induction ps with
  | nil => intro acc _ hacc; simpa using hacc
  | cons hd tl ih =>
    intro acc hmem hacc
    obtain ⟨k1, v1⟩ := hd
    simp only [List.map_cons, List.mem_cons] at hmem
    push_neg at hmem
    simp only [List.foldl_cons]
    exact ih _ hmem.2 ((mapGet?_mapSet_ne acc k1 k (encodeParam v1) hmem.1).trans hacc)

/-- If the caller's dict does not define a key, the encoded request
parameter map does not either. -/
theorem encodeParams_eq_none (ps : List (String × PyVal)) (k : String)
    (h : k ∉ ps.map Prod.fst) : mapGet? (encodeParams ps) k = none :=
  mapGet?_foldl_encodeParam_eq_none k ps [] h rfl

/-- When the store holds state for the model, the built request's
`model_state` parameter is `json.dumps` of that state, regardless of the
caller's parameters. -/
theorem build_request_model_state_present (states : List (String × Json))
    (model_name : String) (now_ms : Int) (data_batch : List (String × NpArray))
    (params : List (String × PyVal)) (v : Json)
    (h : mapGet? states model_name = some v) :
    mapGet? (build_request states model_name now_ms data_batch params).parameters
        "model_state" = some (.string_param (dumps v)) := by
  simp [build_request, h, mapGet?_mapSet_self]

/-- When the store holds no state for the model, the built request's
`model_state` parameter is whatever the caller's parameters encoded to
(in particular `none` when the caller did not use the key). -/
theorem build_request_model_state_absent (states : List (String × Json))
    (model_name : String) (now_ms : Int) (data_batch : List (String × NpArray))
    (params : List (String × PyVal))
    (h : mapGet? states model_name = none) :
    mapGet? (build_request states model_name now_ms data_batch params).parameters
        "model_state" = mapGet? (encodeParams params) "model_state" := by
  simp [build_request, h]

/-- A call whose response parses and carries a parseable state blob
commits exactly `json.loads` of the blob under the model's key. -/
theorem streaming_inference_commit (client : RxInferStreamingClient)
    (model_name : String) (now_ms : Int) (data_batch : List (String × NpArray))
    (params : List (String × PyVal)) (response : ModelInferResponse)
    (s : String) (v : Json) (results : List (String × NpArray))
    (hparse : parseOutputs response.outputs [] = .ok results)
    (hstate : mapGet? response.parameters "model_state" = some (.string_param s))
    (hloads : json_loads s = .ok v) :
    (streaming_inference client model_name now_ms data_batch params (.ok response)).1
      = ⟨mapSet client.model_states model_name v⟩ := by
  simp [streaming_inference, infer_handle_response, hparse, hstate,
    InferParameter.getStringParam, hloads]

/-- After a run of calls each of which successfully carried a state blob,
the store holds the parse of the last blob. -/
theorem runCalls_last_state (model_name : String)
    (calls : List CallSpec) (svs : List (String × Json))
    (h : List.Forall₂ CarriesState calls svs) :
    ∀ (client : RxInferStreamingClient) (s : String) (v : Json),
      svs.getLast? = some (s, v) →
      mapGet? (runCalls model_name client calls).model_states model_name = some v := by
  induction h with
  | nil => intro client s v hlast; simp at hlast
  | @cons c sv cs svs' hrel hrest ih =>
    intro client s v hlast
    obtain ⟨response, results, hout, hparse, hstate, hloads⟩ := hrel
    have hstep : (streaming_inference client model_name c.now_ms c.data_batch c.params
        c.outcome).1 = ⟨mapSet client.model_states model_name sv.2⟩ := by
      rw [hout]
      exact streaming_inference_commit client model_name c.now_ms c.data_batch c.params
        response sv.1 sv.2 results hparse hstate hloads
    cases svs' with
    | nil =>
      have hcs : cs = [] := by
        cases hrest
        rfl
      subst hcs
      simp only [List.getLast?_singleton, Option.some.injEq] at hlast
      subst hlast
      simp only [runCalls, hstep, mapGet?_mapSet_self]
    | cons sv2 svs2 =>
      have hcs : cs ≠ [] := by
        intro hnil
        subst hnil
        cases hrest
      have hlast2 : (sv2 :: svs2).getLast? = some (s, v) := by
        simpa [List.getLast?_cons_cons] using hlast
      cases cs with
      | nil => exact absurd rfl hcs
      | cons c2 cs2 =>
        have := ih ⟨mapSet client.model_states model_name sv.2⟩ s v hlast2
        simpa [runCalls, hstep] using this

/-- A tensor whose declared shape's product disagrees with the number of
values in the contents field its datatype selects. -/
def badShape (t : InferTensor) : Prop :=
  (t.datatype = "FP64" ∧ t.shape.prod ≠ t.contents.fp64_contents.length) ∨
  (t.datatype = "FP32" ∧ t.shape.prod ≠ t.contents.fp32_contents.length)

instance (t : InferTensor) : Decidable (badShape t) := by
  unfold badShape
  infer_instance

/-- A shape/value-count mismatch anywhere in the outputs makes the parsing
loop raise. -/
theorem parseOutputs_error_of_badShape :
    ∀ (outs : List InferTensor) (acc : List (String × NpArray)) (t : InferTensor),
      t ∈ outs → badShape t → ∃ e, parseOutputs outs acc = .error e := by
  intro outs
  induction outs with
  | nil => intro acc t h; cases h
  | cons hd rest ih =>
    intro acc t hmem hbad
    rcases List.mem_cons.mp hmem with heq | hmem2
    · subst heq
      rcases hbad with ⟨hdt, hlen⟩ | ⟨hdt, hlen⟩
      · exact ⟨.valueError ("cannot reshape array of size "
            ++ toString t.contents.fp64_contents.length),
          by simp [parseOutputs, hdt, np_reshape, hlen]⟩
      · have h64 : t.datatype ≠ "FP64" := by rw [hdt]; decide
        exact ⟨.valueError ("cannot reshape array of size "
            ++ toString t.contents.fp32_contents.length),
          by simp [parseOutputs, hdt, h64, np_reshape, hlen]⟩
    · by_cases h64 : hd.datatype = "FP64"
      · cases hres : np_reshape hd.contents.fp64_contents hd.shape with
        | ok arr =>
          obtain ⟨e, he⟩ := ih (mapSet acc hd.name arr) t hmem2 hbad
          exact ⟨e, by simp [parseOutputs, h64, hres, he]⟩
        | error e => exact ⟨e, by simp [parseOutputs, h64, hres]⟩
      · by_cases h32 : hd.datatype = "FP32"
        · cases hres : np_reshape hd.contents.fp32_contents hd.shape with
          | ok arr =>
            obtain ⟨e, he⟩ := ih (mapSet acc hd.name arr) t hmem2 hbad
            exact ⟨e, by simp [parseOutputs, h64, h32, hres, he]⟩
          | error e => exact ⟨e, by simp [parseOutputs, h64, h32, hres]⟩
        · obtain ⟨e, he⟩ := ih acc t hmem2 hbad
          exact ⟨e, by simp [parseOutputs, h64, h32, he]⟩

/-! ## Claim theorems -/

/-- Claim C1 (counterexample to the claim as stated): a single successful
response carries the state blob `{"a":1}` (so N = 1 and s_1 = `{"a":1}`),
yet the next request built for that model does NOT carry exactly s_1: the
client re-serializes the parsed blob, producing `{"a": 1}`. -/
theorem C1_counterexample :
    CarriesState cexCall1 ("\x7b\"a\":1\x7d", cexV1) ∧
    mapGet? (build_request
        (runCalls "streaming_kalman" RxInferStreamingClient.init [cexCall1]).model_states
        "streaming_kalman" 1 [] []).parameters "model_state"
      ≠ some (.string_param "\x7b\"a\":1\x7d") := by
  constructor
  · exact ⟨cexResp1, [], rfl, rfl, rfl, rfl⟩
  · decide

/-- Claim C1 (amended): for every model_name and every sequence of N
successful responses whose parameters carry model_state blobs s_1..s_N
(each inside the modelled JSON fragment), the (N+1)th request built by the
streaming client carries `json.dumps(json.loads(s_N))` — the Nth
response's state re-serialized, not the verbatim blob — as its
`model_state` parameter; and the first request (built before any response,
with caller parameters not defining the reserved key) carries no
`model_state` parameter at all. -/
theorem C1_state_continuity :
    (∀ (model_name : String) (now_ms : Int) (data_batch : List (String × NpArray))
        (params : List (String × PyVal)),
        "model_state" ∉ params.map Prod.fst →
        mapGet? (build_request RxInferStreamingClient.init.model_states model_name now_ms
            data_batch params).parameters "model_state" = none) ∧
    (∀ (model_name : String) (calls : List CallSpec) (svs : List (String × Json))
        (s : String) (v : Json) (now_ms : Int) (data_batch : List (String × NpArray))
        (params : List (String × PyVal)),
        List.Forall₂ CarriesState calls svs →
        svs.getLast? = some (s, v) →
        mapGet? (build_request
            (runCalls model_name RxInferStreamingClient.init calls).model_states
            model_name now_ms data_batch params).parameters "model_state"
          = some (.string_param (dumps v))) := by
  constructor
  · intro model_name now_ms data_batch params h
    rw [build_request_model_state_absent RxInferStreamingClient.init.model_states
      model_name now_ms data_batch params rfl]
    exact encodeParams_eq_none params "model_state" h
  · intro model_name calls svs s v now_ms data_batch params hall hlast
    exact build_request_model_state_present _ _ _ _ _ v
      (runCalls_last_state model_name calls svs hall RxInferStreamingClient.init s v hlast)

/-- Claim C1 witness: both parts of the amended statement evaluated at a
concrete run (no prior response: no `model_state`; after the `{"a":1}`
response: the re-serialized blob). -/
theorem C1_witness :
    mapGet? (build_request RxInferStreamingClient.init.model_states "streaming_kalman" 0
        [] []).parameters "model_state" = none ∧
    mapGet? (build_request
        (runCalls "streaming_kalman" RxInferStreamingClient.init [cexCall1]).model_states
        "streaming_kalman" 1 [] []).parameters "model_state"
      = some (.string_param (dumps cexV1)) := by
  have hf : List.Forall₂ CarriesState [cexCall1] [("\x7b\"a\":1\x7d", cexV1)] :=
    List.Forall₂.cons ⟨cexResp1, [], rfl, rfl, rfl, rfl⟩ List.Forall₂.nil
  exact ⟨C1_state_continuity.1 "streaming_kalman" 0 [] [] (by simp),
    C1_state_continuity.2 "streaming_kalman" [cexCall1] [("\x7b\"a\":1\x7d", cexV1)]
      "\x7b\"a\":1\x7d" cexV1 1 [] [] hf rfl⟩

/-- Claim C2: a `streaming_inference` call whose transport outcome is a
`grpc.RpcError` leaves the session state store unchanged for every
model_name and returns the empty results dict; no state is committed on a
failed call. -/
theorem C2_transport_failure_atomic :
    ∀ (client : RxInferStreamingClient) (model_name : String) (now_ms : Int)
      (data_batch : List (String × NpArray)) (params : List (String × PyVal))
      (e : RpcError),
      (streaming_inference client model_name now_ms data_batch params (.error e)).1
        = client ∧
      (streaming_inference client model_name now_ms data_batch params (.error e)).2.2
        = .returned [] ∧
      ∀ (name : String),
        mapGet? (streaming_inference client model_name now_ms data_batch params
            (.error e)).1.model_states name
          = mapGet? client.model_states name := by
  intro client model_name now_ms data_batch params e
  exact ⟨rfl, rfl, fun _ => rfl⟩

/-- Claim C3 (counterexample to the claim as stated): a successful
response carries the blob `[1,2]`; the client does not store `[1,2]`
character for character — it stores the parsed array — and the next
request's `model_state` is the re-encoded `[1, 2]`, which differs from the
received blob. -/
theorem C3_counterexample :
    mapGet? cexResp2.parameters "model_state" = some (.string_param "[1,2]") ∧
    (streaming_inference RxInferStreamingClient.init "m" 0 [] [] (.ok cexResp2)).2.2
      = .returned [] ∧
    mapGet? (streaming_inference RxInferStreamingClient.init "m" 0 [] []
        (.ok cexResp2)).1.model_states "m" = some cexV2 ∧
    mapGet? (build_request (streaming_inference RxInferStreamingClient.init "m" 0 [] []
        (.ok cexResp2)).1.model_states "m" 1 [] []).parameters "model_state"
      = some (.string_param "[1, 2]") ∧
    "[1, 2]" ≠ "[1,2]" := by
  exact ⟨rfl, rfl, rfl, rfl, by decide⟩

/-- Claim C3 (amended): for every successful response whose `model_state`
parameter is the string s (inside the modelled JSON fragment), the client
stores `json.loads(s)` — the parsed value, not the string — under the
model's key, and the next request built for that model carries
`json.dumps(json.loads(s))`: the blob is parsed on receipt and re-encoded
on replay, so it is preserved only up to JSON re-serialization, not
character for character. -/
theorem C3_blob_replay :
    ∀ (client : RxInferStreamingClient) (model_name : String) (now_ms : Int)
      (data_batch : List (String × NpArray)) (params : List (String × PyVal))
      (response : ModelInferResponse) (s : String) (v : Json)
      (results : List (String × NpArray)) (now2 : Int)
      (batch2 : List (String × NpArray)) (params2 : List (String × PyVal)),
      mapGet? response.parameters "model_state" = some (.string_param s) →
      json_loads s = .ok v →
      parseOutputs response.outputs [] = .ok results →
      (streaming_inference client model_name now_ms data_batch params (.ok response)).1
          = ⟨mapSet client.model_states model_name v⟩ ∧
      mapGet? (build_request (streaming_inference client model_name now_ms data_batch
          params (.ok response)).1.model_states model_name now2 batch2
          params2).parameters "model_state"
        = some (.string_param (dumps v)) := by
  intro client model_name now_ms data_batch params response s v results now2 batch2
    params2 hstate hloads hparse
  have hstep := streaming_inference_commit client model_name now_ms data_batch params
    response s v results hparse hstate hloads
  refine ⟨hstep, ?_⟩
  rw [hstep]
  exact build_request_model_state_present _ _ _ _ _ v (mapGet?_mapSet_self _ _ _)

/-- Claim C3 witness: the amended statement evaluated at the `[1,2]`
response. -/
theorem C3_witness :
    (streaming_inference RxInferStreamingClient.init "m" 0 [] [] (.ok cexResp2)).1
        = ⟨mapSet RxInferStreamingClient.init.model_states "m" cexV2⟩ ∧
    mapGet? (build_request (streaming_inference RxInferStreamingClient.init "m" 0 [] []
        (.ok cexResp2)).1.model_states "m" 1 [] []).parameters "model_state"
      = some (.string_param (dumps cexV2)) :=
  C3_blob_replay RxInferStreamingClient.init "m" 0 [] [] cexResp2 "[1,2]" cexV2 [] 1 [] []
    rfl rfl rfl

/-- Claim C4 (counterexample to the claim as stated): building a request
with caller parameters `{"model_state": "x"}` does not fail with
`DuplicateParameterKey` (no such failure exists); the reserved key is
silently merged, and when the store holds state for the model (here the
value 7) the store's state silently overwrites the caller's entry. -/
theorem C4_counterexample :
    (build_request [] "m" 0 [] [("model_state", .pyStr "x")]).parameters
      = [("model_state", .string_param "x")] ∧
    (build_request [("m", Json.num 7)] "m" 0 [] [("model_state", .pyStr "x")]).parameters
      = [("model_state", .string_param "7")] :=
  ⟨rfl, rfl⟩

/-- Claim C4 (amended): request building never fails on a caller-supplied
`model_state` key; the caller's entry is encoded like any other parameter,
and it is silently overwritten by `json.dumps` of the store's state
whenever the store holds state for the model. -/
theorem C4_reserved_key_merge :
    ∀ (states : List (String × Json)) (model_name : String) (now_ms : Int)
      (data_batch : List (String × NpArray)) (params : List (String × PyVal)) (v : Json),
      (mapGet? states model_name = some v →
        mapGet? (build_request states model_name now_ms data_batch params).parameters
            "model_state" = some (.string_param (dumps v))) ∧
      (mapGet? states model_name = none →
        mapGet? (build_request states model_name now_ms data_batch params).parameters
            "model_state" = mapGet? (encodeParams params) "model_state") := by
  intro states model_name now_ms data_batch params v
  exact ⟨build_request_model_state_present states model_name now_ms data_batch params v,
    build_request_model_state_absent states model_name now_ms data_batch params⟩

/-- Claim C4 witness: the amended statement evaluated with caller
parameters `{"model_state": "x"}`, once with state 7 stored (store wins)
and once with an empty store (caller's encoding goes through). -/
theorem C4_witness :
    mapGet? (build_request [("m", Json.num 7)] "m" 0 []
        [("model_state", PyVal.pyStr "x")]).parameters "model_state"
      = some (.string_param (dumps (Json.num 7))) ∧
    mapGet? (build_request [] "m" 0 []
        [("model_state", PyVal.pyStr "x")]).parameters "model_state"
      = mapGet? (encodeParams [("model_state", PyVal.pyStr "x")]) "model_state" :=
  ⟨(C4_reserved_key_merge [("m", Json.num 7)] "m" 0 []
      [("model_state", PyVal.pyStr "x")] (Json.num 7)).1 rfl,
   (C4_reserved_key_merge [] "m" 0 []
      [("model_state", PyVal.pyStr "x")] (Json.num 7)).2 rfl⟩

/-- Claim C5: a boolean parameter value satisfies Python's integer
`isinstance` test too, yet the encoding chain tests booleans first, so a
boolean is always encoded into the `bool_param` wire variant and never
into `int64_param`. -/
theorem C5_bool_before_int :
    ∀ (b : Bool),
      PyVal.isinstance_int (.pyBool b) = true ∧
      encodeParam (.pyBool b) = .bool_param b ∧
      ∀ (i : Int), encodeParam (.pyBool b) ≠ .int64_param i := by
  intro b
  refine ⟨rfl, rfl, ?_⟩
  intro i h
  exact InferParameter.noConfusion
    (show InferParameter.bool_param b = .int64_param i from h)

/-- Claim C6 (the code at the claim's failing input): a parameter value
that is neither bool, int, nor str — here the float `1.0` that the demo
itself passes under key `"Δt"` — is NOT rejected with
`UnsupportedParameterType`; the encoding chain has no else branch, so the
value is silently dropped and the request carries an empty parameter (no
oneof variant set) under that key. -/
theorem C6_float_param_dropped :
    encodeParam (.pyFloat 1) = .unset ∧
    (build_request [] "streaming_kalman" 0 [("y", ⟨[1], [1]⟩)]
        [("Δt", .pyFloat 1)]).parameters
      = [("Δt", InferParameter.unset)] :=
  ⟨rfl, rfl⟩

/-- Claim C7: a response containing an output tensor whose declared
shape's product differs from its value count makes the call fail — the
numpy reshape error propagates out of `streaming_inference` — with no
partial result returned and no state committed. -/
theorem C7_shape_mismatch_fatal :
    ∀ (client : RxInferStreamingClient) (model_name : String) (now_ms : Int)
      (data_batch : List (String × NpArray)) (params : List (String × PyVal))
      (response : ModelInferResponse) (t : InferTensor),
      t ∈ response.outputs → badShape t →
      ∃ e, streaming_inference client model_name now_ms data_batch params (.ok response)
        = (client,
           build_request client.model_states model_name now_ms data_batch params,
           .raised e) := by
  intro client model_name now_ms data_batch params response t hmem hbad
  obtain ⟨e, he⟩ := parseOutputs_error_of_badShape response.outputs [] t hmem hbad
  exact ⟨e, by simp [streaming_inference, infer_handle_response, he]⟩

/-- Claim C7 witness: the `shape=[2,3]`, 5-value tensor of the spec's own
test case makes the call raise, returning nothing and committing nothing. -/
theorem C7_witness :
    cexBadTensor ∈ cexBadResp.outputs ∧ badShape cexBadTensor ∧
    ∃ e, streaming_inference RxInferStreamingClient.init "m" 0 [] [] (.ok cexBadResp)
      = (RxInferStreamingClient.init,
         build_request RxInferStreamingClient.init.model_states "m" 0 [] [],
         .raised e) :=
  ⟨List.mem_cons_self cexBadTensor [], by decide,
   C7_shape_mismatch_fatal RxInferStreamingClient.init "m" 0 [] [] cexBadResp
     cexBadTensor (List.mem_cons_self cexBadTensor []) (by decide)⟩

/-- Claim C8 (counterexample to the claim as stated): `INT64` lies inside
the enumerated datatype set `{FP32,FP64,INT64,BOOL,BYTES}`, yet encoding
an INT64 tensor raises `ValueError` (not success), and an INT64 output
tensor is silently skipped during decoding (not decoded, not an error). -/
theorem C8_counterexample :
    create_tensor "x" ⟨[0], []⟩ "INT64"
      = .error (.valueError "Unsupported datatype: INT64") ∧
    parseOutputs [{ name := "z", datatype := "INT64", shape := [2],
                    contents := { fp64_contents := [], fp32_contents := [] } }] []
      = .ok [] :=
  ⟨rfl, rfl⟩

/-- Claim C8 (amended): tensor encoding succeeds exactly for datatypes
`FP64` and `FP32` and raises `ValueError("Unsupported datatype: ...")` for
every other datatype (including INT64, BOOL and BYTES of the enumerated
set); tensor decoding handles only `FP64` and `FP32` outputs and silently
skips an output of any other datatype. -/
theorem C8_fp_only :
    ∀ (name : String) (data : NpArray) (datatype : String),
      (datatype ≠ "FP64" → datatype ≠ "FP32" →
        create_tensor name data datatype
          = .error (.valueError ("Unsupported datatype: " ++ datatype))) ∧
      (datatype = "FP64" ∨ datatype = "FP32" →
        ∃ t, create_tensor name data datatype = .ok t) ∧
      (∀ (t : InferTensor) (rest : List InferTensor) (acc : List (String × NpArray)),
        t.datatype ≠ "FP64" → t.datatype ≠ "FP32" →
        parseOutputs (t :: rest) acc = parseOutputs rest acc) := by
  intro name data datatype
  refine ⟨?_, ?_, ?_⟩
  · intro h64 h32
    simp [create_tensor, h64, h32]
  · rintro (h | h) <;> subst h
    · exact ⟨_, rfl⟩
    · exact ⟨_, rfl⟩
  · intro t rest acc h64 h32
    simp [parseOutputs, h64, h32]

/-- Claim C8 witness: the amended statement evaluated at datatype `INT64`
(encode fails, decode skips) and at `FP64` (encode succeeds). -/
theorem C8_witness :
    create_tensor "x" ⟨[0], []⟩ "INT64"
      = .error (.valueError ("Unsupported datatype: " ++ "INT64")) ∧
    (∃ t, create_tensor "x" ⟨[0], []⟩ "FP64" = .ok t) ∧
    parseOutputs [{ name := "z", datatype := "INT64", shape := [2],
                    contents := { fp64_contents := [], fp32_contents := [] } }] []
      = parseOutputs [] [] := by
  refine ⟨(C8_fp_only "x" ⟨[0], []⟩ "INT64").1 (by decide) (by decide),
    (C8_fp_only "x" ⟨[0], []⟩ "FP64").2.1 (Or.inl rfl),
    (C8_fp_only "x" ⟨[0], []⟩ "INT64").2.2 _ [] [] (by decide) (by decide)⟩

/-- Claim C9 (the code at the claim's failing interleaving): two sessions
against model `"m"` whose get -> RPC -> put cycles interleave as
A.get, B.get, A.put, B.put.  Nothing serializes the cycles — the store is
a bare dict — so both requests are built from the same prior state `0`,
the commit history ends with two states both derived from that one prior
(the claimed impossibility), and session A's committed state is
overwritten without ever being read: a lost update.  Under the serialized
schedule A.get, A.put, B.get, B.put the priors are distinct, showing the
harness itself does not force the collision. -/
theorem C9_lost_update :
    (raceRun echoServer "m" 1 2 raceInit [true, false, true, false]).history
      = [(some (.string_param "0"), "\"m_1\""),
         (some (.string_param "0"), "\"m_2\"")] ∧
    mapGet? (raceRun echoServer "m" 1 2 raceInit
        [true, false, true, false]).client.model_states "m"
      = some (.str "m_2") ∧
    (raceRun echoServer "m" 1 2 raceInit [true, true, false, false]).history
      = [(some (.string_param "0"), "\"m_1\""),
         (some (.string_param "\"m_1\""), "\"m_2\"")] :=
  ⟨rfl, rfl, rfl⟩

/-- Claim C10: the RPC health checks are total Boolean functions of the
transport outcome — any `grpc.RpcError` yields `False` rather than a
propagated exception — so a caller cannot distinguish an unreachable
server from one that answered `live=false` / `ready=false`. -/
theorem C10_health_checks_total :
    ∀ (e : RpcError) (model_name : String),
      check_server_live (.error e) = false ∧
      check_model_ready model_name (.error e) = false ∧
      check_server_live (.error e) = check_server_live (.ok ⟨false⟩) ∧
      check_model_ready model_name (.error e)
        = check_model_ready model_name (.ok ⟨false⟩) := by
  intro e model_name
  exact ⟨rfl, rfl, rfl, rfl⟩
